import Mathlib

/-!
Verification of the VisionCaster button-driven interaction state machine
(`src/main.py`): a shallow embedding of the polling loop, debounce / edge
detection, press classification, the capture-caption-persist pipeline and
the append-only interaction log, together with proofs of the specified
properties.

Conventions of the embedding:
* Wall-clock instants (`time.time()`) are rationals (seconds).
* `datetime.now()` values are explicit `Timestamp` records.
* Each poll iteration of `main()` receives a `PollEnv`: the sampled GPIO
  level, the `time.time()` reading, the `datetime.now()` reading, and the
  outcome of the captioning try-block (`Except.ok caption` on success,
  `Except.error e` when any exception is raised while opening or
  processing the image).
* Side effects (LCD writes, camera, audio, model loads, log appends) are
  recorded as an `Action` trace in program order.
-/

namespace VisionCaster

/-- GPIO logic level of the button line (`RPi.GPIO`: LOW = 0, HIGH = 1;
the line is pull-up biased, so LOW means pressed). -/
inductive Level where
  | low
  | high
deriving DecidableEq, Repr, BEq

namespace GPIO

/-- `GPIO.LOW` from `RPi.GPIO`. -/
abbrev LOW : Level := Level.low

/-- `GPIO.HIGH` from `RPi.GPIO`. -/
abbrev HIGH : Level := Level.high

end GPIO

/-- `SHORT_PRESS_TIME = 0.5` (src/main.py line 42): duration threshold in
seconds identifying a short press. -/
def SHORT_PRESS_TIME : ℚ := 0.5

/-- `DEBOUNCE_TIME = 0.1` (src/main.py line 43): inter-sample debounce
delay in seconds. -/
def DEBOUNCE_TIME : ℚ := 0.1

/-- A `datetime.now()` value, to microsecond resolution as in CPython. -/
structure Timestamp where
  year : Nat
  month : Nat
  day : Nat
  hour : Nat
  minute : Nat
  second : Nat
  microsecond : Nat
deriving DecidableEq, Repr, BEq

/-- Zero-pad the decimal rendering of `n` to width `w`, as the
`%04d`-style formatting of Python does. -/
def padNat (w : Nat) (n : Nat) : String :=
  let s := toString n
  String.mk (List.replicate (w - s.length) '0') ++ s

/-- The `current_time.strftime` call with format `%Y%m%d_%H%M%S`
(src/main.py line 200). -/
def Timestamp.strftime_YmdHMS (t : Timestamp) : String :=
  padNat 4 t.year ++ padNat 2 t.month ++ padNat 2 t.day ++ "_" ++
    padNat 2 t.hour ++ padNat 2 t.minute ++ padNat 2 t.second

/-- `current_time.isoformat()` (src/main.py line 172): ISO-8601, with the
`.ffffff` microsecond part omitted when the microsecond field is zero,
exactly as CPython renders it. -/
def Timestamp.isoformat (t : Timestamp) : String :=
  padNat 4 t.year ++ "-" ++ padNat 2 t.month ++ "-" ++ padNat 2 t.day ++ "T" ++
    padNat 2 t.hour ++ ":" ++ padNat 2 t.minute ++ ":" ++ padNat 2 t.second ++
    (if t.microsecond = 0 then "" else "." ++ padNat 6 t.microsecond)

/-- The capture filename derived in src/main.py line 200:
`os.path.join("data", f"photo_{current_time.strftime(%Y%m%d_%H%M%S)}.png")`. -/
def photoFilename (current_time : Timestamp) : String :=
  "data/photo_" ++ current_time.strftime_YmdHMS ++ ".png"

/-- One record of `data/history.json` as built in src/main.py
lines 171-175. -/
structure InteractionRecord where
  createdAt : String
  caption : String
  filename : String
deriving DecidableEq, Repr, BEq

/-- An observable side effect of one poll iteration, in program order. -/
inductive Action where
  | lcdClear
  | lcdWrite (text : String)
  | cameraStart
  | cameraCapture (filename : String)
  | cameraStop
  | playClip (name : String)
  | speak (text : String)
  | loadProcessor
  | loadModel
  | appendRecord (record : InteractionRecord)
deriving DecidableEq, Repr, BEq

/-- `display_message(text, sleep_time)` (src/main.py lines 155-162):
clears the LCD, writes `text`, and when `sleep_time > 0` sleeps and
clears again. -/
def display_message (text : String) (sleep_time : ℚ) : List Action :=
  [Action.lcdClear, Action.lcdWrite text] ++
    (if 0 < sleep_time then [Action.lcdClear] else [])

/-- `capture_image(filename)` (src/main.py lines 90-102): camera start,
capture to `filename`, camera stop. -/
def capture_image (filename : String) : List Action :=
  [Action.cameraStart, Action.cameraCapture filename, Action.cameraStop]

/-- `convert_text_to_speech(speech_text, musicName)` (src/main.py
lines 127-151): with a `musicName` it plays the named clip to completion;
otherwise it synthesizes and speaks `speech_text` to completion. -/
def convert_text_to_speech (speech_text : Option String) (musicName : Option String) :
    List Action :=
  match musicName with
  | some name => [Action.playClip name]
  | none => [Action.speak (speech_text.getD "")]

/-- The model loads performed unconditionally at the top of
`analyse_image` (src/main.py lines 109-110): `BlipProcessor.from_pretrained`
and `BlipForConditionalGeneration.from_pretrained` run on every call,
before the try-block. -/
def analyse_image_load_effects : List Action :=
  [Action.loadProcessor, Action.loadModel]

/-- The value returned by `analyse_image(filename)` (src/main.py
lines 106-123): the caption produced by the try-block when it succeeds,
and the fixed fallback string when any exception is raised while opening
or processing the image. -/
def analyse_image (run : Except String String) : String :=
  match run with
  | Except.ok caption => caption
  | Except.error _ => "Error processing the image."

/-- `save_user_interaction(current_time, caption, filename)` (src/main.py
lines 166-178) as a transformation of the contents of
`data/history.json`: load the list, append the new record built from
`current_time.isoformat()`, `caption` and `filename`, write the result
back. -/
def save_user_interaction (data : List InteractionRecord) (current_time : Timestamp)
    (caption : String) (filename : String) : List InteractionRecord :=
  data ++ [{ createdAt := current_time.isoformat
             caption := caption
             filename := filename }]

/-- The process-wide button-tracking state (src/main.py lines 80-83). -/
structure DeviceState where
  prev_button_state : Level
  press_time_start : ℚ
  press_time_end : ℚ
deriving DecidableEq, Repr

/-- Initial value `prev_button_state = GPIO.LOW` (src/main.py line 80). -/
def prev_button_state : Level := GPIO.LOW

/-- Initial value `press_time_start = 0` (src/main.py line 82). -/
def press_time_start : ℚ := 0

/-- Initial value `press_time_end = 0` (src/main.py line 83). -/
def press_time_end : ℚ := 0

/-- The device state as it stands when the poll loop first runs. -/
def initialDevice : DeviceState :=
  { prev_button_state := prev_button_state
    press_time_start := press_time_start
    press_time_end := press_time_end }

/-- The whole mutable world one poll iteration acts on: the device state
and the contents of `data/history.json`. -/
structure World where
  dev : DeviceState
  log : List InteractionRecord
deriving DecidableEq, Repr

/-- The world at process start; `data/history.json` must pre-exist and
hold the list `log`. -/
def startupWorld (log : List InteractionRecord) : World :=
  { dev := initialDevice, log := log }

/-- The environment one poll iteration of `main()` observes: the sampled
level of `BUTTON_PIN`, the `time.time()` reading, the `datetime.now()`
reading, and the outcome of the captioning try-block. -/
structure PollEnv where
  level : Level
  t : ℚ
  now : Timestamp
  captionRun : Except String String

/-- The edge event implied by the two comparisons of src/main.py
lines 192 and 194: `Pressed` on HIGH to LOW, `Released` on LOW to HIGH,
nothing when the level is unchanged. -/
inductive Edge where
  | pressed
  | released
deriving DecidableEq, Repr

/-- The sample-and-compare debounce event, read off the branch
conditions of src/main.py lines 192-194. -/
def pollEvent (prev cur : Level) : Option Edge :=
  if prev = GPIO.HIGH ∧ cur = GPIO.LOW then some Edge.pressed
  else if prev = GPIO.LOW ∧ cur = GPIO.HIGH then some Edge.released
  else none

/-- The capture pipeline body of src/main.py lines 199-213, entered only
on a qualifying short press: derive the filename from `current_time`,
show the smile prompt, capture, play the shutter clip, announce then show
the processing message, obtain the caption (loading the model), append
the interaction record, show then speak the caption, clear the LCD.
Returns the new `data/history.json` contents and the effect trace. -/
def capturePipeline (current_time : Timestamp) (captionRun : Except String String)
    (log : List InteractionRecord) : List InteractionRecord × List Action :=
  let filename := photoFilename current_time
  let caption := analyse_image captionRun
  (save_user_interaction log current_time caption filename,
    display_message "Smile for the camera!" 0 ++
    capture_image filename ++
    convert_text_to_speech none (some "camera") ++
    convert_text_to_speech (some "Processing image...") none ++
    display_message "Processing image..." 0 ++
    analyse_image_load_effects ++
    [Action.appendRecord
      { createdAt := current_time.isoformat
        caption := caption
        filename := filename }] ++
    display_message caption 0 ++
    convert_text_to_speech (some caption) none ++
    [Action.lcdClear])

/-- The if/elif body of `main()` (src/main.py lines 192-213), before the
unconditional `prev_button_state = button_state` of line 215. -/
def mainBranch (env : PollEnv) (w : World) : World × List Action :=
  if w.dev.prev_button_state = GPIO.HIGH ∧ env.level = GPIO.LOW then
    ({ w with dev := { w.dev with press_time_start := env.t } }, [])
  else if w.dev.prev_button_state = GPIO.LOW ∧ env.level = GPIO.HIGH then
    let press_time_end := env.t
    let press_duration := press_time_end - w.dev.press_time_start
    if press_duration < SHORT_PRESS_TIME then
      ({ dev := { w.dev with press_time_end := press_time_end }
         log := (capturePipeline env.now env.captionRun w.log).1 },
        (capturePipeline env.now env.captionRun w.log).2)
    else
      ({ w with dev := { w.dev with press_time_end := press_time_end } }, [])
  else
    (w, [])

/-- One call of `main()` (src/main.py lines 183-215): run the edge
branches, then unconditionally store the sampled level into
`prev_button_state` (line 215). -/
def main (env : PollEnv) (w : World) : World × List Action :=
  let r := mainBranch env w
  ({ r.1 with dev := { r.1.dev with prev_button_state := env.level } }, r.2)

/-- The `while True: main()` poll loop (src/main.py lines 225-226) run on
a finite list of poll environments, concatenating the effect traces. -/
def runSteps (envs : List PollEnv) (w : World) : World × List Action :=
  match envs with
  | [] => (w, [])
  | e :: rest =>
    let r := main e w
    let r' := runSteps rest r.1
    (r'.1, r.2 ++ r'.2)

/-- One qualifying short press, as the poll loop observes it: the press
sample arrives at `t0`, the release sample at `t1`, the release handling
reads `datetime.now() = now`, and the captioning try-block outcome is
`captionRun`. -/
structure PressSpec where
  t0 : ℚ
  t1 : ℚ
  now : Timestamp
  captionRun : Except String String

/-- The two poll samples a press produces: LOW at `t0`, HIGH at `t1`. -/
def pressEnvs (p : PressSpec) : List PollEnv :=
  [{ level := GPIO.LOW, t := p.t0, now := p.now, captionRun := p.captionRun },
   { level := GPIO.HIGH, t := p.t1, now := p.now, captionRun := p.captionRun }]

/-- The poll-sample sequence of a list of presses processed one after the
other. -/
def pressTrace (specs : List PressSpec) : List PollEnv :=
  (specs.map pressEnvs).flatten

/-- The interaction record a qualifying press appends. -/
def recordOf (p : PressSpec) : InteractionRecord :=
  { createdAt := p.now.isoformat
    caption := analyse_image p.captionRun
    filename := photoFilename p.now }

end VisionCaster

namespace VisionCaster

/-- Line 215 of src/main.py runs on every path: after each poll
iteration, `prev_button_state` holds the level just sampled. -/
theorem main_prev_update (env : PollEnv) (w : World) :
    (main env w).1.dev.prev_button_state = env.level := by
  unfold main mainBranch
  split_ifs <;> rfl

/-- A HIGH-to-LOW sample (button pressed, line 192-193): the press start
time is recorded, nothing else changes and no effect is performed. -/
theorem main_press (env : PollEnv) (w : World)
    (hprev : w.dev.prev_button_state = GPIO.HIGH) (hlev : env.level = GPIO.LOW) :
    main env w =
      ({ dev := { prev_button_state := GPIO.LOW
                  press_time_start := env.t
                  press_time_end := w.dev.press_time_end }
         log := w.log }, []) := by
  simp [main, mainBranch, hprev, hlev]

/-- A LOW-to-HIGH sample whose span is shorter than `SHORT_PRESS_TIME`
(lines 194-213): the capture pipeline runs, producing its effect trace
and appending exactly one record to the log. -/
theorem main_release_short (env : PollEnv) (w : World)
    (hprev : w.dev.prev_button_state = GPIO.LOW) (hlev : env.level = GPIO.HIGH)
    (hdur : env.t - w.dev.press_time_start < SHORT_PRESS_TIME) :
    main env w =
      ({ dev := { prev_button_state := GPIO.HIGH
                  press_time_start := w.dev.press_time_start
                  press_time_end := env.t }
         log := w.log ++ [{ createdAt := env.now.isoformat
                            caption := analyse_image env.captionRun
                            filename := photoFilename env.now }] },
       (capturePipeline env.now env.captionRun w.log).2) := by
  simp [main, mainBranch, hprev, hlev, hdur, capturePipeline, save_user_interaction]

/-- A LOW-to-HIGH sample whose span reaches `SHORT_PRESS_TIME` or more:
the span is discarded, no effect is performed and the log is unchanged. -/
theorem main_release_long (env : PollEnv) (w : World)
    (hprev : w.dev.prev_button_state = GPIO.LOW) (hlev : env.level = GPIO.HIGH)
    (hdur : ¬ env.t - w.dev.press_time_start < SHORT_PRESS_TIME) :
    main env w =
      ({ dev := { prev_button_state := GPIO.HIGH
                  press_time_start := w.dev.press_time_start
                  press_time_end := env.t }
         log := w.log }, []) := by
  simp [main, mainBranch, hprev, hlev, hdur]

/-- An unchanged level: neither branch of lines 192-194 fires, no effect
is performed and only the (idempotent) level store of line 215 runs. -/
theorem main_same_level (env : PollEnv) (w : World)
    (hsame : w.dev.prev_button_state = env.level) :
    main env w =
      ({ w with dev := { w.dev with prev_button_state := env.level } }, []) := by
  cases h : env.level <;> simp [main, mainBranch, hsame, h]

/-- Unfolding `pressTrace` over the head press. -/
theorem pressTrace_cons (p : PressSpec) (specs : List PressSpec) :
    pressTrace (p :: specs) =
      { level := GPIO.LOW, t := p.t0, now := p.now, captionRun := p.captionRun } ::
      { level := GPIO.HIGH, t := p.t1, now := p.now, captionRun := p.captionRun } ::
      pressTrace specs := rfl

/-- Unfolding one iteration of the poll loop. -/
theorem runSteps_cons (e : PollEnv) (envs : List PollEnv) (w : World) :
    runSteps (e :: envs) w =
      ((runSteps envs (main e w).1).1, (main e w).2 ++ (runSteps envs (main e w).1).2) := rfl

/-- Processing a list of qualifying short presses from a HIGH resting
level appends exactly their records, in order, and leaves the machine
resting at HIGH again. -/
theorem runSteps_press_log (specs : List PressSpec) (w : World)
    (hprev : w.dev.prev_button_state = GPIO.HIGH)
    (hq : ∀ p ∈ specs, p.t1 - p.t0 < SHORT_PRESS_TIME) :
    (runSteps (pressTrace specs) w).1.log = w.log ++ specs.map recordOf ∧
    (runSteps (pressTrace specs) w).1.dev.prev_button_state = GPIO.HIGH := by
  induction specs generalizing w with
  | nil => simpa [pressTrace, runSteps] using hprev
  | cons p rest ih =>
    rw [pressTrace_cons, runSteps_cons]
    rw [main_press _ w hprev rfl]
    rw [runSteps_cons]
    rw [main_release_short _ _ rfl rfl (by simpa using hq p (List.mem_cons_self p rest))]
    have hrest : ∀ q ∈ rest, q.t1 - q.t0 < SHORT_PRESS_TIME := fun q hq' =>
      hq q (List.mem_cons_of_mem p hq')
    have hih := ih
      { dev := { prev_button_state := GPIO.HIGH
                 press_time_start := p.t0
                 press_time_end := p.t1 }
        log := w.log ++ [{ createdAt := p.now.isoformat
                           caption := analyse_image p.captionRun
                           filename := photoFilename p.now }] } rfl hrest
    simp only [List.map_cons]
    constructor
    · rw [hih.1]
      simp [recordOf]
    · exact hih.2

end VisionCaster

namespace VisionCaster

/-- Claim C1: for every qualifying short press that completes capture,
exactly one `InteractionRecord` is appended to the log; for N qualifying
short presses processed sequentially, exactly N records are appended, in
chronological order, with no partial or duplicate record: the final log
is exactly the initial log followed by the per-press records in press
order. -/
theorem one_record_per_qualifying_short_press (specs : List PressSpec) (w : World)
    (hprev : w.dev.prev_button_state = GPIO.HIGH)
    (hq : ∀ p ∈ specs, p.t1 - p.t0 < SHORT_PRESS_TIME) :
    (runSteps (pressTrace specs) w).1.log = w.log ++ specs.map recordOf :=
  (runSteps_press_log specs w hprev hq).1

/-- Witness for C1: two qualifying presses (0.2 s and 0.2 s, the second
with a failing captioner) append exactly their two records in order. -/
theorem one_record_per_qualifying_short_press_witness :
    (runSteps (pressTrace
        [⟨0, 1/5, ⟨2024, 5, 1, 10, 30, 7, 0⟩, Except.ok "a dog"⟩,
         ⟨1, 6/5, ⟨2024, 5, 1, 10, 30, 8, 0⟩, Except.error "boom"⟩])
        { dev := { prev_button_state := GPIO.HIGH, press_time_start := 0, press_time_end := 0 }
          log := [] }).1.log =
      [] ++ [(⟨0, 1/5, ⟨2024, 5, 1, 10, 30, 7, 0⟩, Except.ok "a dog"⟩ : PressSpec),
             ⟨1, 6/5, ⟨2024, 5, 1, 10, 30, 8, 0⟩, Except.error "boom"⟩].map recordOf :=
  one_record_per_qualifying_short_press
    [⟨0, 1/5, ⟨2024, 5, 1, 10, 30, 7, 0⟩, Except.ok "a dog"⟩,
     ⟨1, 6/5, ⟨2024, 5, 1, 10, 30, 8, 0⟩, Except.error "boom"⟩]
    { dev := { prev_button_state := GPIO.HIGH, press_time_start := 0, press_time_end := 0 }
      log := [] }
    rfl (by intro p hp; fin_cases hp <;> norm_num [SHORT_PRESS_TIME])

/-- Counterexample to claim C2 as stated: a release at duration exactly
0.5 s does NOT trigger the capture pipeline (line 198 compares with
strict less-than), so the half of the claim asserting that a duration
exactly at 0.5 s triggers it is false: here the effect trace is empty
and no record is appended. -/
theorem release_at_exact_half_second_not_triggering :
    (main { level := GPIO.HIGH, t := 1/2, now := ⟨2024, 5, 1, 10, 30, 7, 0⟩
            captionRun := Except.ok "a cat" }
       { dev := { prev_button_state := GPIO.LOW, press_time_start := 0, press_time_end := 0 }
         log := [] }).2 = [] ∧
    (main { level := GPIO.HIGH, t := 1/2, now := ⟨2024, 5, 1, 10, 30, 7, 0⟩
            captionRun := Except.ok "a cat" }
       { dev := { prev_button_state := GPIO.LOW, press_time_start := 0, press_time_end := 0 }
         log := [] }).1.log = [] := by
  rw [main_release_long _ _ rfl rfl (by norm_num [SHORT_PRESS_TIME])]
  exact ⟨rfl, rfl⟩

/-- Claim C2 (amended): for every press, a release at duration strictly
under 0.5 s triggers the capture pipeline (its effect trace is emitted
and its record appended), and a release at duration at or above 0.5 s
does not: the span is discarded with no effect and the machine returns
to the resting HIGH level. -/
theorem short_press_strict_boundary (env : PollEnv) (w : World)
    (hprev : w.dev.prev_button_state = GPIO.LOW) (hlev : env.level = GPIO.HIGH) :
    (env.t - w.dev.press_time_start < SHORT_PRESS_TIME →
      (main env w).2 = (capturePipeline env.now env.captionRun w.log).2 ∧
      (main env w).1.log = w.log ++ [{ createdAt := env.now.isoformat
                                       caption := analyse_image env.captionRun
                                       filename := photoFilename env.now }]) ∧
    (SHORT_PRESS_TIME ≤ env.t - w.dev.press_time_start →
      (main env w).2 = [] ∧ (main env w).1.log = w.log ∧
      (main env w).1.dev.prev_button_state = GPIO.HIGH) := by
  constructor
  · intro hdur
    rw [main_release_short env w hprev hlev hdur]
    exact ⟨rfl, rfl⟩
  · intro hdur
    rw [main_release_long env w hprev hlev (not_lt.mpr hdur)]
    exact ⟨rfl, rfl, rfl⟩

/-- Witness for C2 (amended): a release at duration 0.2 s emits the
pipeline trace and appends its record. -/
theorem short_press_strict_boundary_witness :
    (main { level := GPIO.HIGH, t := 1/5, now := ⟨2024, 5, 1, 10, 30, 7, 0⟩
            captionRun := Except.ok "a cat" }
       { dev := { prev_button_state := GPIO.LOW, press_time_start := 0, press_time_end := 0 }
         log := [] }).2 =
      (capturePipeline ⟨2024, 5, 1, 10, 30, 7, 0⟩ (Except.ok "a cat") []).2 ∧
    (main { level := GPIO.HIGH, t := 1/5, now := ⟨2024, 5, 1, 10, 30, 7, 0⟩
            captionRun := Except.ok "a cat" }
       { dev := { prev_button_state := GPIO.LOW, press_time_start := 0, press_time_end := 0 }
         log := [] }).1.log =
      [] ++ [{ createdAt := Timestamp.isoformat ⟨2024, 5, 1, 10, 30, 7, 0⟩
               caption := analyse_image (Except.ok "a cat")
               filename := photoFilename ⟨2024, 5, 1, 10, 30, 7, 0⟩ }] :=
  (short_press_strict_boundary
    { level := GPIO.HIGH, t := 1/5, now := ⟨2024, 5, 1, 10, 30, 7, 0⟩
      captionRun := Except.ok "a cat" }
    { dev := { prev_button_state := GPIO.LOW, press_time_start := 0, press_time_end := 0 }
      log := [] } rfl rfl).1 (by norm_num [SHORT_PRESS_TIME])

/-- Claim C3: when the captioning try-block fails with any exception,
`analyse_image` returns exactly the fixed fallback string instead of
propagating the error; the pipeline still emits its full effect trace
and a record containing the fallback string is still appended. -/
theorem caption_fallback_on_failure (e : String) (env : PollEnv) (w : World)
    (hfail : env.captionRun = Except.error e)
    (hprev : w.dev.prev_button_state = GPIO.LOW) (hlev : env.level = GPIO.HIGH)
    (hdur : env.t - w.dev.press_time_start < SHORT_PRESS_TIME) :
    analyse_image env.captionRun = "Error processing the image." ∧
    (main env w).2 = (capturePipeline env.now env.captionRun w.log).2 ∧
    (main env w).1.log = w.log ++ [{ createdAt := env.now.isoformat
                                     caption := "Error processing the image."
                                     filename := photoFilename env.now }] := by
  have h1 : analyse_image env.captionRun = "Error processing the image." := by
    rw [hfail]
    rfl
  refine ⟨h1, ?_, ?_⟩ <;> rw [main_release_short env w hprev hlev hdur]
  simp [h1]

/-- Witness for C3: a qualifying press whose captioner raises appends a
record with the fallback caption. -/
theorem caption_fallback_on_failure_witness :
    analyse_image (Except.error "cannot identify image file") = "Error processing the image." ∧
    (main { level := GPIO.HIGH, t := 1/5, now := ⟨2024, 5, 1, 10, 30, 7, 0⟩
            captionRun := Except.error "cannot identify image file" }
       { dev := { prev_button_state := GPIO.LOW, press_time_start := 0, press_time_end := 0 }
         log := [] }).2 =
      (capturePipeline ⟨2024, 5, 1, 10, 30, 7, 0⟩ (Except.error "cannot identify image file") []).2 ∧
    (main { level := GPIO.HIGH, t := 1/5, now := ⟨2024, 5, 1, 10, 30, 7, 0⟩
            captionRun := Except.error "cannot identify image file" }
       { dev := { prev_button_state := GPIO.LOW, press_time_start := 0, press_time_end := 0 }
         log := [] }).1.log =
      [] ++ [{ createdAt := Timestamp.isoformat ⟨2024, 5, 1, 10, 30, 7, 0⟩
               caption := "Error processing the image."
               filename := photoFilename ⟨2024, 5, 1, 10, 30, 7, 0⟩ }] :=
  caption_fallback_on_failure "cannot identify image file"
    { level := GPIO.HIGH, t := 1/5, now := ⟨2024, 5, 1, 10, 30, 7, 0⟩
      captionRun := Except.error "cannot identify image file" }
    { dev := { prev_button_state := GPIO.LOW, press_time_start := 0, press_time_end := 0 }
      log := [] } rfl rfl rfl (by norm_num [SHORT_PRESS_TIME])

/-- Claim C4: for every pair of consecutive samples, a `Pressed` event is
emitted exactly on a HIGH-to-LOW transition, a `Released` event exactly
on a LOW-to-HIGH transition, no event when the level is unchanged; and
the previous stable level persists across poll calls, each call storing
the level it sampled. -/
theorem debouncer_edges (prev cur : Level) (env : PollEnv) (w : World) :
    (pollEvent prev cur = some Edge.pressed ↔ (prev = GPIO.HIGH ∧ cur = GPIO.LOW)) ∧
    (pollEvent prev cur = some Edge.released ↔ (prev = GPIO.LOW ∧ cur = GPIO.HIGH)) ∧
    (pollEvent prev cur = none ↔ prev = cur) ∧
    (main env w).1.dev.prev_button_state = env.level := by
  refine ⟨?_, ?_, ?_, main_prev_update env w⟩ <;> cases prev <;> cases cur <;> decide

/-- Claim C5: on every qualifying short press the pipeline executes as an
uninterruptible sequence in exactly this order: show the smile prompt,
capture the image to the derived filename, play the camera-shutter clip,
announce and show the processing message, obtain the caption (loading
the model), append the log record, show then announce the caption, clear
the display, and return to the resting HIGH state. -/
theorem pipeline_action_sequence (env : PollEnv) (w : World)
    (hprev : w.dev.prev_button_state = GPIO.LOW) (hlev : env.level = GPIO.HIGH)
    (hdur : env.t - w.dev.press_time_start < SHORT_PRESS_TIME) :
    (main env w).2 =
      [Action.lcdClear, Action.lcdWrite "Smile for the camera!",
       Action.cameraStart, Action.cameraCapture (photoFilename env.now), Action.cameraStop,
       Action.playClip "camera",
       Action.speak "Processing image...",
       Action.lcdClear, Action.lcdWrite "Processing image...",
       Action.loadProcessor, Action.loadModel,
       Action.appendRecord { createdAt := env.now.isoformat
                             caption := analyse_image env.captionRun
                             filename := photoFilename env.now },
       Action.lcdClear, Action.lcdWrite (analyse_image env.captionRun),
       Action.speak (analyse_image env.captionRun),
       Action.lcdClear] ∧
    (main env w).1.dev.prev_button_state = GPIO.HIGH := by
  rw [main_release_short env w hprev hlev hdur]
  refine ⟨?_, rfl⟩
  simp [capturePipeline, display_message, capture_image, convert_text_to_speech,
        analyse_image_load_effects]

/-- Witness for C5: the full ordered trace of a concrete qualifying
press. -/
theorem pipeline_action_sequence_witness :
    (main { level := GPIO.HIGH, t := 1/5, now := ⟨2024, 5, 1, 10, 30, 7, 0⟩
            captionRun := Except.ok "a cat" }
       { dev := { prev_button_state := GPIO.LOW, press_time_start := 0, press_time_end := 0 }
         log := [] }).2 =
      [Action.lcdClear, Action.lcdWrite "Smile for the camera!",
       Action.cameraStart, Action.cameraCapture (photoFilename ⟨2024, 5, 1, 10, 30, 7, 0⟩),
       Action.cameraStop,
       Action.playClip "camera",
       Action.speak "Processing image...",
       Action.lcdClear, Action.lcdWrite "Processing image...",
       Action.loadProcessor, Action.loadModel,
       Action.appendRecord { createdAt := Timestamp.isoformat ⟨2024, 5, 1, 10, 30, 7, 0⟩
                             caption := analyse_image (Except.ok "a cat")
                             filename := photoFilename ⟨2024, 5, 1, 10, 30, 7, 0⟩ },
       Action.lcdClear, Action.lcdWrite (analyse_image (Except.ok "a cat")),
       Action.speak (analyse_image (Except.ok "a cat")),
       Action.lcdClear] ∧
    (main { level := GPIO.HIGH, t := 1/5, now := ⟨2024, 5, 1, 10, 30, 7, 0⟩
            captionRun := Except.ok "a cat" }
       { dev := { prev_button_state := GPIO.LOW, press_time_start := 0, press_time_end := 0 }
         log := [] }).1.dev.prev_button_state = GPIO.HIGH :=
  pipeline_action_sequence
    { level := GPIO.HIGH, t := 1/5, now := ⟨2024, 5, 1, 10, 30, 7, 0⟩
      captionRun := Except.ok "a cat" }
    { dev := { prev_button_state := GPIO.LOW, press_time_start := 0, press_time_end := 0 }
      log := [] } rfl rfl (by norm_num [SHORT_PRESS_TIME])

end VisionCaster

namespace VisionCaster

/-- Claim C6: on a qualifying press the captured image filename is
derived as data/photo_YYYYMMDD_HHMMSS.png from the timestamp read at
release handling; the appended record carries that timestamp in ISO-8601
form, the produced caption, and a filename equal to the captured image
reference; and two timestamps within the same second (equal down to the
seconds field) yield the same filename. -/
theorem filename_derivation_and_record_fields (env : PollEnv) (w : World) (t2 : Timestamp)
    (hprev : w.dev.prev_button_state = GPIO.LOW) (hlev : env.level = GPIO.HIGH)
    (hdur : env.t - w.dev.press_time_start < SHORT_PRESS_TIME)
    (hy : t2.year = env.now.year) (hmo : t2.month = env.now.month)
    (hd : t2.day = env.now.day) (hh : t2.hour = env.now.hour)
    (hmi : t2.minute = env.now.minute) (hs : t2.second = env.now.second) :
    photoFilename env.now = "data/photo_" ++ env.now.strftime_YmdHMS ++ ".png" ∧
    Action.cameraCapture (photoFilename env.now) ∈ (main env w).2 ∧
    (main env w).1.log = w.log ++ [{ createdAt := env.now.isoformat
                                     caption := analyse_image env.captionRun
                                     filename := photoFilename env.now }] ∧
    photoFilename t2 = photoFilename env.now := by
  refine ⟨rfl, ?_, ?_, ?_⟩
  · rw [main_release_short env w hprev hlev hdur]
    simp [capturePipeline, display_message, capture_image, convert_text_to_speech,
          analyse_image_load_effects]
  · rw [main_release_short env w hprev hlev hdur]
  · simp [photoFilename, Timestamp.strftime_YmdHMS, hy, hmo, hd, hh, hmi, hs]

/-- Witness for C6: a concrete qualifying press; the colliding second
timestamp differs only in microseconds. -/
theorem filename_derivation_and_record_fields_witness :
    photoFilename ⟨2024, 5, 1, 10, 30, 7, 123456⟩ =
      "data/photo_" ++ Timestamp.strftime_YmdHMS ⟨2024, 5, 1, 10, 30, 7, 123456⟩ ++ ".png" ∧
    Action.cameraCapture (photoFilename ⟨2024, 5, 1, 10, 30, 7, 123456⟩) ∈
      (main { level := GPIO.HIGH, t := 1/5, now := ⟨2024, 5, 1, 10, 30, 7, 123456⟩
              captionRun := Except.ok "a cat" }
         { dev := { prev_button_state := GPIO.LOW, press_time_start := 0, press_time_end := 0 }
           log := [] }).2 ∧
    (main { level := GPIO.HIGH, t := 1/5, now := ⟨2024, 5, 1, 10, 30, 7, 123456⟩
            captionRun := Except.ok "a cat" }
       { dev := { prev_button_state := GPIO.LOW, press_time_start := 0, press_time_end := 0 }
         log := [] }).1.log =
      [] ++ [{ createdAt := Timestamp.isoformat ⟨2024, 5, 1, 10, 30, 7, 123456⟩
               caption := analyse_image (Except.ok "a cat")
               filename := photoFilename ⟨2024, 5, 1, 10, 30, 7, 123456⟩ }] ∧
    photoFilename ⟨2024, 5, 1, 10, 30, 7, 999999⟩ =
      photoFilename ⟨2024, 5, 1, 10, 30, 7, 123456⟩ :=
  filename_derivation_and_record_fields
    { level := GPIO.HIGH, t := 1/5, now := ⟨2024, 5, 1, 10, 30, 7, 123456⟩
      captionRun := Except.ok "a cat" }
    { dev := { prev_button_state := GPIO.LOW, press_time_start := 0, press_time_end := 0 }
      log := [] }
    ⟨2024, 5, 1, 10, 30, 7, 999999⟩
    rfl rfl (by norm_num [SHORT_PRESS_TIME]) rfl rfl rfl rfl rfl rfl

/-- Claim C7: appending a record to a log holding R1..Rk and reading it
back yields exactly R1..Rk followed by the new record; the length grows
by one and every previously stored position is unchanged. -/
theorem interaction_log_append_only (data : List InteractionRecord) (current_time : Timestamp)
    (caption fname : String) (i : Nat) (h : i < data.length) :
    save_user_interaction data current_time caption fname =
      data ++ [{ createdAt := current_time.isoformat, caption := caption, filename := fname }] ∧
    (save_user_interaction data current_time caption fname).length = data.length + 1 ∧
    (save_user_interaction data current_time caption fname)[i]? = data[i]? := by
  refine ⟨rfl, by simp [save_user_interaction], ?_⟩
  simp only [save_user_interaction]
  exact List.getElem?_append_left h

/-- Witness for C7: appending to a one-record log keeps position 0
intact and yields the two records in order. -/
theorem interaction_log_append_only_witness :
    save_user_interaction [{ createdAt := "2024-05-01T10:30:07", caption := "a dog"
                             filename := "data/photo_20240501_103007.png" }]
        ⟨2024, 5, 1, 10, 30, 8, 0⟩ "a cat" "data/photo_20240501_103008.png" =
      [{ createdAt := "2024-05-01T10:30:07", caption := "a dog"
         filename := "data/photo_20240501_103007.png" }] ++
      [{ createdAt := Timestamp.isoformat ⟨2024, 5, 1, 10, 30, 8, 0⟩, caption := "a cat"
         filename := "data/photo_20240501_103008.png" }] ∧
    (save_user_interaction [{ createdAt := "2024-05-01T10:30:07", caption := "a dog"
                              filename := "data/photo_20240501_103007.png" }]
        ⟨2024, 5, 1, 10, 30, 8, 0⟩ "a cat" "data/photo_20240501_103008.png").length =
      ([{ createdAt := "2024-05-01T10:30:07", caption := "a dog"
          filename := "data/photo_20240501_103007.png" }] : List InteractionRecord).length + 1 ∧
    (save_user_interaction [{ createdAt := "2024-05-01T10:30:07", caption := "a dog"
                              filename := "data/photo_20240501_103007.png" }]
        ⟨2024, 5, 1, 10, 30, 8, 0⟩ "a cat" "data/photo_20240501_103008.png")[0]? =
      ([{ createdAt := "2024-05-01T10:30:07", caption := "a dog"
          filename := "data/photo_20240501_103007.png" }] : List InteractionRecord)[0]? :=
  interaction_log_append_only
    [{ createdAt := "2024-05-01T10:30:07", caption := "a dog"
       filename := "data/photo_20240501_103007.png" }]
    ⟨2024, 5, 1, 10, 30, 8, 0⟩ "a cat" "data/photo_20240501_103008.png" 0 (by norm_num)

/-- Counterexample to claim C8 as stated: src/main.py line 80 initializes
`prev_button_state` to `GPIO.LOW`, which is the active (pressed) level of
the active-low line, not the claimed inactive `GPIO.HIGH` level. -/
theorem initial_prev_state_is_low_not_high :
    initialDevice.prev_button_state = GPIO.LOW ∧ GPIO.LOW ≠ GPIO.HIGH := by
  exact ⟨rfl, by decide⟩

/-- Claim C8 (amended): the last-seen raw button level is initialized at
startup to `GPIO.LOW` (the active, pressed level, despite the line
resting at HIGH under its pull-up), is mutated exactly once per poll
iteration (set to the sampled level at the end of each `main()` call),
and is never reset except at process start. -/
theorem prev_state_lifecycle :
    initialDevice.prev_button_state = GPIO.LOW ∧
    (∀ (env : PollEnv) (w : World), (main env w).1.dev.prev_button_state = env.level) :=
  ⟨rfl, main_prev_update⟩

/-- Claim C9 is violated by the code: `analyse_image` runs both
`from_pretrained` loads on every call (src/main.py lines 109-110 sit
inside the per-press function), so two qualifying presses load the
captioning model twice, not once. -/
theorem model_loaded_on_every_press :
    ((runSteps (pressTrace
        [⟨0, 1/5, ⟨2024, 5, 1, 10, 30, 7, 0⟩, Except.ok "a dog"⟩,
         ⟨1, 6/5, ⟨2024, 5, 1, 10, 30, 8, 0⟩, Except.ok "a cat"⟩])
        { dev := { prev_button_state := GPIO.HIGH, press_time_start := 0, press_time_end := 0 }
          log := [] }).2.count Action.loadModel) = 2 := by
  rw [pressTrace_cons, runSteps_cons, main_press _ _ rfl rfl, runSteps_cons,
      main_release_short _ _ rfl rfl (by norm_num [SHORT_PRESS_TIME])]
  rw [pressTrace_cons, runSteps_cons, main_press _ _ rfl rfl, runSteps_cons,
      main_release_short _ _ rfl rfl (by norm_num [SHORT_PRESS_TIME])]
  simp only [pressTrace, List.map_nil, List.flatten_nil, runSteps, capturePipeline,
        display_message, capture_image, convert_text_to_speech, analyse_image_load_effects,
        List.count_cons, List.count_append, List.count_nil, List.append_nil, List.nil_append]
  decide

/-- Claim C10: at process start the previous-level variable is LOW and
the press start time is 0, so the very first poll of an unpressed HIGH
line is handled as a Released edge with no preceding Pressed edge; for
any first-sample wall-clock time of at least 0.5 s since the epoch, the
computed duration fails the short-press test, so this spurious release
performs no effect and merely moves the machine to the resting HIGH
state. -/
theorem first_poll_is_spurious_release_without_capture (t : ℚ) (now : Timestamp)
    (run : Except String String) (log : List InteractionRecord)
    (ht : SHORT_PRESS_TIME ≤ t) :
    pollEvent (startupWorld log).dev.prev_button_state GPIO.HIGH = some Edge.released ∧
    prev_button_state = GPIO.LOW ∧ press_time_start = 0 ∧
    (main { level := GPIO.HIGH, t := t, now := now, captionRun := run } (startupWorld log)).2 = [] ∧
    (main { level := GPIO.HIGH, t := t, now := now, captionRun := run } (startupWorld log)).1 =
      { dev := { prev_button_state := GPIO.HIGH, press_time_start := 0, press_time_end := t }
        log := log } := by
  have hnot : ¬ t - (startupWorld log).dev.press_time_start < SHORT_PRESS_TIME := by
    simp only [startupWorld, initialDevice, press_time_start, sub_zero]
    exact not_lt.mpr ht
  refine ⟨rfl, rfl, rfl, ?_, ?_⟩ <;>
    rw [main_release_long _ _ rfl rfl hnot]
  rfl

/-- Witness for C10: the first poll at epoch time 1700000000 s performs
no effect. -/
theorem first_poll_is_spurious_release_without_capture_witness :
    pollEvent (startupWorld []).dev.prev_button_state GPIO.HIGH = some Edge.released ∧
    prev_button_state = GPIO.LOW ∧ press_time_start = 0 ∧
    (main { level := GPIO.HIGH, t := 1700000000, now := ⟨2024, 5, 1, 10, 30, 7, 0⟩
            captionRun := Except.ok "a cat" } (startupWorld [])).2 = [] ∧
    (main { level := GPIO.HIGH, t := 1700000000, now := ⟨2024, 5, 1, 10, 30, 7, 0⟩
            captionRun := Except.ok "a cat" } (startupWorld [])).1 =
      { dev := { prev_button_state := GPIO.HIGH, press_time_start := 0
                 press_time_end := 1700000000 }
        log := [] } :=
  first_poll_is_spurious_release_without_capture 1700000000 ⟨2024, 5, 1, 10, 30, 7, 0⟩
    (Except.ok "a cat") [] (by norm_num [SHORT_PRESS_TIME])

end VisionCaster
